import Mathlib

/-!
Shallow embedding of the cosmjs pubkey codec (`encodeBech32Pubkey` /
`decodeBech32Pubkey` and the amino marker constants).

Modelling conventions:
* Byte sequences (`Uint8Array`) are `List Nat`; `data.slice(0, n)` is
  `List.take n data` and `data.slice(n)` is `List.drop n data`, which share
  the clamping semantics of `Uint8Array.slice`.
* The bech32 codec, the base64 codec and the hex codec are external trusted
  collaborators.  Bech32 is embedded as the pair (human-readable part, data
  bytes) it losslessly carries; key bytes are kept as raw bytes rather than
  their base64 string image, since `toBase64`/`fromBase64` are a lossless
  external bijection used only for display.
* A thrown `Error` is an `Except.error` carrying the exact message string
  the source builds.
-/

namespace CosmjsAmino

/-- Byte sequences, one natural number per byte. -/
abbrev Bytes := List Nat

/-- Modelled from the spec: the closed algorithm enumeration `pubkeyType`
lives in `./types`, which is not among the provided sources; the spec fixes
it to the closed set {secp256k1, ed25519, sr25519}. -/
inductive Algorithm where
  | secp256k1
  | ed25519
  | sr25519
  deriving DecidableEq

/-- Modelled from the spec: the `PubKey` shape from `./types` (not among the
provided sources): an algorithm tag plus the key bytes (the source stores the
bytes through the external lossless base64 codec). -/
structure PubKey where
  type : Algorithm
  value : Bytes
  deriving DecidableEq

/-- The pair the external bech32 codec losslessly carries: the
human-readable part and the data bytes.  `Bech32.encode` builds this pair,
`Bech32.decode` takes it apart. -/
structure Bech32Data where
  hrp : String
  data : Bytes
  deriving DecidableEq

/-- The accepted human-readable parts (`validPubkeyPrefixes`). -/
def validPubkeyHrps : List String :=
  ["cosmospub", "cosmosvalconspub", "cosmosvaloperpub"]

/-- `isCosmosPubkeyBech32Prefix` from the source: membership in the accepted
set of human-readable parts. -/
def isCosmosPubkeyBech32Hrp (hrp : String) : Bool :=
  validPubkeyHrps.contains hrp

/-- `pubkeyAminoPrefixSecp256k1 = fromHex "eb5ae98721"`. -/
def pubkeyAminoMarkerSecp256k1 : Bytes := [0xeb, 0x5a, 0xe9, 0x87, 0x21]

/-- `pubkeyAminoPrefixEd25519 = fromHex "1624de6420"`. -/
def pubkeyAminoMarkerEd25519 : Bytes := [0x16, 0x24, 0xde, 0x64, 0x20]

/-- `pubkeyAminoPrefixSr25519 = fromHex "0dfb1005"`. -/
def pubkeyAminoMarkerSr25519 : Bytes := [0x0d, 0xfb, 0x10, 0x05]

/-- `pubkeyAminoPrefixLength = pubkeyAminoPrefixSecp256k1.length`. -/
def pubkeyAminoMarkerLength : Nat := pubkeyAminoMarkerSecp256k1.length

/-- One lowercase hex digit. -/
def hexDigit (n : Nat) : Char :=
  "0123456789abcdef".toList.getD n '0'

/-- Two lowercase hex digits of one byte, as in `Encoding.toHex`. -/
def hexByte (b : Nat) : String :=
  String.mk [hexDigit (b / 16 % 16), hexDigit (b % 16)]

/-- `Encoding.toHex`: lowercase hex, two digits per byte. -/
def toHex (bs : Bytes) : String :=
  String.join (bs.map hexByte)

/-- `decodeBech32Pubkey` from the source, on the pair delivered by the
external bech32 codec.  Checks the human-readable part, splits a fixed
5-byte amino marker off the data, dispatches on the marker and checks the
remaining payload length. -/
def decodeBech32Pubkey (bech : Bech32Data) : Except String PubKey :=
  if ¬ isCosmosPubkeyBech32Hrp bech.hrp then
    .error ("Invalid bech32 prefix. Must be one of "
      ++ String.intercalate ", " validPubkeyHrps ++ ".")
  else
    let aminoMarker := bech.data.take pubkeyAminoMarkerLength
    let rest := bech.data.drop pubkeyAminoMarkerLength
    if aminoMarker = pubkeyAminoMarkerSecp256k1 then
      if rest.length ≠ 33 then
        .error "Invalid rest data length. Expected 33 bytes (compressed secp256k1 pubkey)."
      else
        .ok ⟨Algorithm.secp256k1, rest⟩
    else if aminoMarker = pubkeyAminoMarkerEd25519 then
      if rest.length ≠ 32 then
        .error "Invalid rest data length. Expected 32 bytes (Ed25519 pubkey)."
      else
        .ok ⟨Algorithm.ed25519, rest⟩
    else if aminoMarker = pubkeyAminoMarkerSr25519 then
      if rest.length ≠ 32 then
        .error "Invalid rest data length. Expected 32 bytes (Sr25519 pubkey)."
      else
        .ok ⟨Algorithm.sr25519, rest⟩
    else
      .error ("Unsupported Pubkey type. Amino prefix: " ++ toHex aminoMarker)

/-- `encodeBech32Pubkey` from the source: only secp256k1 keys are encoded;
the data handed to the external bech32 encoder is the secp256k1 marker
followed by the key bytes, with no length validation. -/
def encodeBech32Pubkey (pubkey : PubKey) (hrp : String) :
    Except String Bech32Data :=
  match pubkey.type with
  | Algorithm.secp256k1 => .ok ⟨hrp, pubkeyAminoMarkerSecp256k1 ++ pubkey.value⟩
  | _ => .error "Unsupported pubkey type"

/-- C1: for every 33-byte key bytes value `k` and every accepted
human-readable part, encoding `{secp256k1, k}` to bech32 and decoding the
result returns exactly `{secp256k1, k}`. -/
theorem decode_encode_secp256k1_roundtrip (k : Bytes) (hrp : String)
    (hk : k.length = 33) (hp : isCosmosPubkeyBech32Hrp hrp = true) :
    (encodeBech32Pubkey ⟨Algorithm.secp256k1, k⟩ hrp).bind decodeBech32Pubkey
      = .ok ⟨Algorithm.secp256k1, k⟩ := by
  show decodeBech32Pubkey ⟨hrp, pubkeyAminoMarkerSecp256k1 ++ k⟩
      = .ok ⟨Algorithm.secp256k1, k⟩
  simp [decodeBech32Pubkey, pubkeyAminoMarkerLength, hp, hk,
    List.take_left, List.drop_left]

/-- C1 witness: the round trip at a concrete 33-byte key and the
human-readable part `cosmospub`. -/
theorem decode_encode_secp256k1_roundtrip_witness :
    (encodeBech32Pubkey ⟨Algorithm.secp256k1, List.replicate 33 7⟩ "cosmospub").bind
        decodeBech32Pubkey
      = .ok ⟨Algorithm.secp256k1, List.replicate 33 7⟩ :=
  decode_encode_secp256k1_roundtrip (List.replicate 33 7) "cosmospub" (by simp) (by rfl)

/-- C4: a bech32 pair whose human-readable part is outside the accepted set
is rejected with the invalid-prefix error listing the accepted set, whatever
the data payload holds. -/
theorem decode_invalid_hrp_rejected (b : Bech32Data)
    (hp : isCosmosPubkeyBech32Hrp b.hrp = false) :
    decodeBech32Pubkey b
      = .error "Invalid bech32 prefix. Must be one of cosmospub, cosmosvalconspub, cosmosvaloperpub." := by
  unfold decodeBech32Pubkey
  rw [hp]
  rfl

/-- C4 witness: the prefix `cosmos` is rejected, with a nonempty payload in
place. -/
theorem decode_invalid_hrp_rejected_witness :
    decodeBech32Pubkey ⟨"cosmos", [1, 2, 3]⟩
      = .error "Invalid bech32 prefix. Must be one of cosmospub, cosmosvalconspub, cosmosvaloperpub." :=
  decode_invalid_hrp_rejected ⟨"cosmos", [1, 2, 3]⟩ (by rfl)

/-- C7: encoding any pubkey whose algorithm tag is not secp256k1 fails with
the unsupported-algorithm error, for every human-readable part. -/
theorem encode_non_secp256k1_rejected (pk : PubKey) (hrp : String)
    (h : pk.type ≠ Algorithm.secp256k1) :
    encodeBech32Pubkey pk hrp = .error "Unsupported pubkey type" := by
  cases pk with
  | mk ty v =>
    cases ty with
    | secp256k1 => exact absurd rfl h
    | ed25519 => rfl
    | sr25519 => rfl

/-- C7 witness: a 32-byte ed25519 key is refused by the encoder. -/
theorem encode_non_secp256k1_rejected_witness :
    encodeBech32Pubkey ⟨Algorithm.ed25519, List.replicate 32 0⟩ "cosmospub"
      = .error "Unsupported pubkey type" :=
  encode_non_secp256k1_rejected ⟨Algorithm.ed25519, List.replicate 32 0⟩ "cosmospub"
    (by decide)

/-- C8: the encoder never checks the key length: for every byte list `k` of
any length and every human-readable part, encoding `{secp256k1, k}` succeeds
and the data handed to the external bech32 encoder is exactly the secp256k1
marker followed by `k`. -/
theorem encode_secp256k1_no_length_check (k : Bytes) (hrp : String) :
    encodeBech32Pubkey ⟨Algorithm.secp256k1, k⟩ hrp
      = .ok ⟨hrp, pubkeyAminoMarkerSecp256k1 ++ k⟩ := rfl

/-- C5: with an accepted human-readable part, data whose marker slice
matches a known algorithm's marker but whose remaining payload length is
wrong for that algorithm is rejected with the invalid-length error naming
the expected length and the algorithm. -/
theorem decode_wrong_payload_length_rejected (b : Bech32Data)
    (hp : isCosmosPubkeyBech32Hrp b.hrp = true) :
    (b.data.take pubkeyAminoMarkerLength = pubkeyAminoMarkerSecp256k1 →
        (b.data.drop pubkeyAminoMarkerLength).length ≠ 33 →
        decodeBech32Pubkey b
          = .error "Invalid rest data length. Expected 33 bytes (compressed secp256k1 pubkey).")
    ∧ (b.data.take pubkeyAminoMarkerLength = pubkeyAminoMarkerEd25519 →
        (b.data.drop pubkeyAminoMarkerLength).length ≠ 32 →
        decodeBech32Pubkey b
          = .error "Invalid rest data length. Expected 32 bytes (Ed25519 pubkey).")
    ∧ (b.data.take pubkeyAminoMarkerLength = pubkeyAminoMarkerSr25519 →
        (b.data.drop pubkeyAminoMarkerLength).length ≠ 32 →
        decodeBech32Pubkey b
          = .error "Invalid rest data length. Expected 32 bytes (Sr25519 pubkey).") := by
  refine ⟨fun h1 h2 => ?_, fun h1 h2 => ?_, fun h1 h2 => ?_⟩
  · rw [List.length_drop] at h2
    simp [decodeBech32Pubkey, hp, h1, h2]
  · rw [List.length_drop] at h2
    simp [decodeBech32Pubkey, hp, h1, h2,
      pubkeyAminoMarkerSecp256k1, pubkeyAminoMarkerEd25519]
  · rw [List.length_drop] at h2
    simp [decodeBech32Pubkey, hp, h1, h2,
      pubkeyAminoMarkerSecp256k1, pubkeyAminoMarkerEd25519, pubkeyAminoMarkerSr25519]

/-- C5 witness: a secp256k1 marker followed by 32 bytes (one short) is
rejected with the 33-byte length error. -/
theorem decode_wrong_payload_length_rejected_witness :
    decodeBech32Pubkey ⟨"cosmospub", pubkeyAminoMarkerSecp256k1 ++ List.replicate 32 0⟩
      = .error "Invalid rest data length. Expected 33 bytes (compressed secp256k1 pubkey)." :=
  (decode_wrong_payload_length_rejected
      ⟨"cosmospub", pubkeyAminoMarkerSecp256k1 ++ List.replicate 32 0⟩ (by rfl)).1
    (by rfl) (by decide)

/-- C6: with an accepted human-readable part, data whose marker slice
matches no known algorithm's marker is rejected with the unsupported-type
error reporting the marker slice in hex. -/
theorem decode_unknown_marker_rejected (b : Bech32Data)
    (hp : isCosmosPubkeyBech32Hrp b.hrp = true)
    (h1 : b.data.take pubkeyAminoMarkerLength ≠ pubkeyAminoMarkerSecp256k1)
    (h2 : b.data.take pubkeyAminoMarkerLength ≠ pubkeyAminoMarkerEd25519)
    (h3 : b.data.take pubkeyAminoMarkerLength ≠ pubkeyAminoMarkerSr25519) :
    decodeBech32Pubkey b
      = .error ("Unsupported Pubkey type. Amino prefix: "
          ++ toHex (b.data.take pubkeyAminoMarkerLength)) := by
  simp [decodeBech32Pubkey, hp, h1, h2, h3]

/-- C6 witness: five bytes matching no marker report themselves in hex. -/
theorem decode_unknown_marker_rejected_witness :
    decodeBech32Pubkey ⟨"cosmospub", [0, 1, 2, 3, 4, 5]⟩
      = .error "Unsupported Pubkey type. Amino prefix: 0001020304" :=
  (decode_unknown_marker_rejected ⟨"cosmospub", [0, 1, 2, 3, 4, 5]⟩
      (by rfl) (by decide) (by decide) (by decide)).trans (by rfl)

/-- C2 (failing direction): decoding the manually built sr25519 tagged
bytes — the 4-byte sr25519 marker constant followed by a 32-byte payload —
does not return the sr25519 key; the 5-byte marker slice absorbs the first
payload byte and the decoder throws the unsupported-type error. -/
theorem decode_sr25519_tagged_bytes_fails :
    decodeBech32Pubkey ⟨"cosmospub", pubkeyAminoMarkerSr25519 ++ List.replicate 32 0⟩
      = .error "Unsupported Pubkey type. Amino prefix: 0dfb100500" := by
  rfl

/-- C3 (failing direction): the secp256k1 and ed25519 markers have the
decoder's fixed split width of 5 bytes, but the sr25519 marker constant has
only 4 bytes. -/
theorem sr25519_marker_length_mismatch :
    pubkeyAminoMarkerSecp256k1.length = pubkeyAminoMarkerLength
    ∧ pubkeyAminoMarkerEd25519.length = pubkeyAminoMarkerLength
    ∧ pubkeyAminoMarkerSr25519.length = 4
    ∧ pubkeyAminoMarkerLength = 5 := by
  decide

/-- C9: the sr25519 success branch of the decoder is unreachable: no input
decodes to an sr25519 pubkey, because the decoder slices a 5-byte marker
while the sr25519 marker constant has 4 bytes, so that marker can only match
when the whole data is the 4-byte constant, whose empty remainder then fails
the 32-byte length check. -/
theorem decode_never_returns_sr25519 (b : Bech32Data) (pk : PubKey)
    (h : decodeBech32Pubkey b = .ok pk) : pk.type ≠ Algorithm.sr25519 := by
  by_cases hp : isCosmosPubkeyBech32Hrp b.hrp
  · by_cases h1 : b.data.take pubkeyAminoMarkerLength = pubkeyAminoMarkerSecp256k1
    · by_cases hl : (b.data.drop pubkeyAminoMarkerLength).length = 33
      · rw [List.length_drop] at hl
        simp [decodeBech32Pubkey, hp, h1, hl] at h
        subst h
        exact fun hc => Algorithm.noConfusion hc
      · rw [List.length_drop] at hl
        simp [decodeBech32Pubkey, hp, h1, hl] at h
    · by_cases h2 : b.data.take pubkeyAminoMarkerLength = pubkeyAminoMarkerEd25519
      · by_cases hl : (b.data.drop pubkeyAminoMarkerLength).length = 32
        · rw [List.length_drop] at hl
          simp [decodeBech32Pubkey, hp, h1, h2, hl,
            pubkeyAminoMarkerSecp256k1, pubkeyAminoMarkerEd25519] at h
          subst h
          exact fun hc => Algorithm.noConfusion hc
        · rw [List.length_drop] at hl
          simp [decodeBech32Pubkey, hp, h1, h2, hl,
            pubkeyAminoMarkerSecp256k1, pubkeyAminoMarkerEd25519] at h
      · by_cases h3 : b.data.take pubkeyAminoMarkerLength = pubkeyAminoMarkerSr25519
        · have h4 : (b.data.take pubkeyAminoMarkerLength).length
              = pubkeyAminoMarkerSr25519.length := by rw [h3]
          rw [List.length_take] at h4
          have h5 : pubkeyAminoMarkerLength = 5 := rfl
          have h6 : pubkeyAminoMarkerSr25519.length = 4 := rfl
          rw [h5, h6] at h4
          have hL : b.data.length = 4 := by omega
          have hl : ¬ b.data.length - pubkeyAminoMarkerLength = 32 := by
            rw [hL, h5]
            decide
          simp [decodeBech32Pubkey, hp, h1, h2, h3, hl,
            pubkeyAminoMarkerSecp256k1, pubkeyAminoMarkerEd25519,
            pubkeyAminoMarkerSr25519] at h
        · simp [decodeBech32Pubkey, hp, h1, h2, h3] at h
  · simp [decodeBech32Pubkey, hp] at h

/-- C9 witness: a successful secp256k1 decode indeed carries a non-sr25519
algorithm tag. -/
theorem decode_never_returns_sr25519_witness :
    PubKey.type ⟨Algorithm.secp256k1, List.replicate 33 7⟩ ≠ Algorithm.sr25519 :=
  decode_never_returns_sr25519
    ⟨"cosmospub", pubkeyAminoMarkerSecp256k1 ++ List.replicate 33 7⟩
    ⟨Algorithm.secp256k1, List.replicate 33 7⟩ (by rfl)

/-- C10: the marker split is total on short data: with an accepted
human-readable part and data strictly shorter than the 5-byte marker width
(the empty payload included), the clamped slices stay in bounds and the
decoder throws the sr25519 length error when the data is exactly the 4-byte
sr25519 marker constant and the unsupported-type error otherwise; it never
succeeds or crashes. -/
theorem decode_short_data_total (hrp : String) (d : Bytes)
    (hp : isCosmosPubkeyBech32Hrp hrp = true)
    (hd : d.length < pubkeyAminoMarkerLength) :
    (d = pubkeyAminoMarkerSr25519 →
        decodeBech32Pubkey ⟨hrp, d⟩
          = .error "Invalid rest data length. Expected 32 bytes (Sr25519 pubkey).")
    ∧ (d ≠ pubkeyAminoMarkerSr25519 →
        decodeBech32Pubkey ⟨hrp, d⟩
          = .error ("Unsupported Pubkey type. Amino prefix: " ++ toHex d)) := by
  have hle : d.length ≤ pubkeyAminoMarkerLength := le_of_lt hd
  have htake : d.take pubkeyAminoMarkerLength = d :=
    List.take_of_length_le hle
  have hdrop : d.drop pubkeyAminoMarkerLength = [] :=
    List.drop_eq_nil_of_le hle
  have hnsecp : d ≠ pubkeyAminoMarkerSecp256k1 := by
    intro e
    rw [e] at hd
    exact absurd hd (by decide)
  have hned : d ≠ pubkeyAminoMarkerEd25519 := by
    intro e
    rw [e] at hd
    exact absurd hd (by decide)
  constructor
  · intro he
    subst he
    simp only [decodeBech32Pubkey, hp]
    rfl
  · intro hne
    simp [decodeBech32Pubkey, hp, htake, hdrop, hnsecp, hned, hne]

/-- C10 witness: the empty payload under an accepted human-readable part
lands in the unsupported-type error with an empty hex marker. -/
theorem decode_short_data_total_witness :
    decodeBech32Pubkey ⟨"cosmospub", []⟩
      = .error ("Unsupported Pubkey type. Amino prefix: " ++ toHex []) :=
  (decode_short_data_total "cosmospub" [] (by rfl) (by decide)).2 (by decide)

end CosmjsAmino
